import Mathlib

/-!
Shallow embedding of the discrete-latent-variable gradient estimators
implemented in `lvmhelpers/sfe.py` and `lvmhelpers/nvil.py`.

Scalars are modelled as dual numbers over the rationals: the `val` component is
the numeric value of a tensor entry and the `tan` component is a forward-mode
directional derivative with respect to an arbitrary model parameter.
`detach` zeroes the derivative component while keeping the value, which is the
semantics of `Tensor.detach()` restricted to one directional derivative.
Per-example tensors (shape `[batch]`) are lists of dual numbers; score matrices
(shape `[batch, K]` or `[batch, B]`) are lists of rows.

External collaborators (the wrapped agent networks, the decoder, the task loss
function, and the elementwise distribution primitives supplied by the tensor
library) are parameters of the embedding, since the specification places them
out of scope.  Every composition step performed by the repository itself is
modelled concretely.  Random draws are passed in as explicit arguments, which
makes the randomness source external, exactly as the specification describes.
-/

/-- A scalar carrying a value and one directional derivative (dual number). -/
structure Dual where
  val : ℚ
  tan : ℚ
deriving DecidableEq

instance : Zero Dual := ⟨⟨0, 0⟩⟩
instance : One Dual := ⟨⟨1, 0⟩⟩
instance : Add Dual := ⟨fun a b => ⟨a.val + b.val, a.tan + b.tan⟩⟩
instance : Neg Dual := ⟨fun a => ⟨-a.val, -a.tan⟩⟩
instance : Sub Dual := ⟨fun a b => ⟨a.val - b.val, a.tan - b.tan⟩⟩
instance : Mul Dual := ⟨fun a b => ⟨a.val * b.val, a.tan * b.val + a.val * b.tan⟩⟩

/-- A Python float or other constant: carries no derivative. -/
def Dual.const (c : ℚ) : Dual := ⟨c, 0⟩

/-- `Tensor.detach()` on one entry: keep the value, drop the derivative. -/
def ddetach (d : Dual) : Dual := ⟨d.val, 0⟩

/-- A per-example tensor of shape `[batch]`. -/
abbrev Tensor1 := List Dual

/-- A score matrix of shape `[batch, K]` or `[batch, B]`. -/
abbrev Tensor2 := List (List Dual)

/-- `Tensor.sum()` over a one-dimensional tensor. -/
def dsum : Tensor1 → Dual
  | [] => 0
  | d :: t => d + dsum t

/-- `Tensor.mean()` over a one-dimensional tensor: sum divided by length. -/
def meanD (t : Tensor1) : Dual := dsum t * Dual.const ((t.length : ℚ)⁻¹)

/-- `Tensor.detach()` on a per-example tensor. -/
def tdetach (t : Tensor1) : Tensor1 := t.map ddetach

/-- Elementwise addition of two per-example tensors. -/
def tadd (a b : Tensor1) : Tensor1 := List.zipWith (· + ·) a b

/-- Elementwise subtraction of two per-example tensors. -/
def tsub (a b : Tensor1) : Tensor1 := List.zipWith (· - ·) a b

/-- Elementwise product of two per-example tensors. -/
def tmul (a b : Tensor1) : Tensor1 := List.zipWith (· * ·) a b

/-- Broadcast subtraction of a Python-float scalar from a tensor. -/
def tsubQ (t : Tensor1) (b : ℚ) : Tensor1 := t.map (fun d => d - Dual.const b)

/-- `Tensor.sum(dim=1)` on a two-dimensional tensor. -/
def sumDim1 (t : Tensor2) : Tensor1 := t.map dsum

/-- A baseline value: either one scalar shared by the whole batch (the
running-average policy stores a Python float) or one value per example. -/
inductive Baseline where
  | scalar (b : ℚ)
  | perExample (t : Tensor1)
deriving DecidableEq

/-- Subtraction of a baseline from a per-example tensor, with the broadcasting
the tensor library applies to a scalar. -/
def tsubBase (t : Tensor1) : Baseline → Tensor1
  | .scalar b => tsubQ t b
  | .perExample bt => tsub t bt

/-- The mutable instance attributes `self.mean_baseline` and `self.n_points`
shared by all four estimator classes (both initialised to `0.0`). -/
structure BaselineState where
  mean_baseline : ℚ
  n_points : ℚ
deriving DecidableEq

/-- The running-average update of `sfe.py` lines 135-138 / 242-245:
`n_points` is incremented by `1.0` first, then
`mean_baseline += (loss.detach().mean() - mean_baseline) / n_points`. -/
def runavgUpdate (st : BaselineState) (m : ℚ) : BaselineState :=
  { mean_baseline := st.mean_baseline + (m - st.mean_baseline) / (st.n_points + 1),
    n_points := st.n_points + 1 }

/-- `scores.argmax(dim=-1)` on one row: index of the largest value (first one
on ties). -/
def argmaxIdx (row : List Dual) : ℕ :=
  (List.range row.length).foldl
    (fun b i => if (row.getD b 0).val < (row.getD i 0).val then i else b) 0

/-- `encoder_scores.argmax(dim=-1)` for the categorical estimators. -/
def catArgmax (scores : Tensor2) : List ℕ := scores.map argmaxIdx

/-- `(encoder_scores > 0).to(torch.float)` for the bit-vector estimators. -/
def bvArgmax (scores : Tensor2) : List (List ℚ) :=
  scores.map (fun row => row.map (fun d => if 0 < d.val then (1 : ℚ) else 0))

/-- The decoder log-probability output of an SFE decoder, which `sfe.py` lines
107-111 inspects: either already one scalar log-probability per example
(one-dimensional) or a matrix of logits that gets re-wrapped as a categorical
distribution. -/
inductive DecLP where
  | oneD (t : Tensor1)
  | twoD (t : Tensor2)

/-- `sfe.py` lines 107-111: if the decoder log-probability tensor is not
one-dimensional, re-wrap it as a categorical distribution and take the
log-probability of the decoder output, otherwise use it as is.  `catLP` is the
tensor library's `Categorical(logits=t).log_prob`. -/
def decoderSampleLogProbs {O : Type} (catLP : Tensor2 → O → Tensor1) :
    DecLP → O → Tensor1
  | .twoD t, out => catLP t out
  | .oneD t, _ => t

/-- `Bernoulli(logits=scores).log_prob(z).sum(dim=1)` (`sfe.py` 221-223,
`nvil.py` 161-163): the elementwise per-bit log-probability `lp` is supplied by
the tensor library; the sum across bits is the repository's own reduction. -/
def bvSampleLogProbs (lp : Dual → ℚ → Dual) (scores : Tensor2)
    (z : List (List ℚ)) : Tensor1 :=
  sumDim1 (List.zipWith (fun srow zrow => List.zipWith lp srow zrow) scores z)

/-- `SFEDeterministicWrapper.forward` (`sfe.py` 67-70): the wrapped agent's
output passes through unchanged, with zero tensors of shape `[1]` standing in
for the log-probability and the entropy. -/
def SFEDeterministicWrapper.forward {A B : Type} (agent : A → B) (x : A) :
    B × Tensor1 × Tensor1 :=
  (agent x, [Dual.const 0], [Dual.const 0])

/-- `BitVectorSFEWrapper.forward` (`sfe.py` 178-186): per-bit Bernoulli
entropies (supplied elementwise by the tensor library as `bernEntropy`) are
summed across `dim=1`; the sample draw is external randomness (`sampler`). -/
def BitVectorSFEWrapper.forward {A : Type} (agent : A → Tensor2)
    (bernEntropy : Dual → Dual) (sampler : Tensor2 → List (List ℚ)) (x : A) :
    List (List ℚ) × Tensor2 × Tensor1 :=
  let scores := agent x
  let entropy := sumDim1 (scores.map (fun row => row.map bernEntropy))
  (sampler scores, scores, entropy)

/-- `BitVectorNVILWrapper.forward` (`nvil.py` 119-127): identical reduction to
the SFE bit-vector wrapper. -/
def BitVectorNVILWrapper.forward {A : Type} (agent : A → Tensor2)
    (bernEntropy : Dual → Dual) (sampler : Tensor2 → List (List ℚ)) (x : A) :
    List (List ℚ) × Tensor2 × Tensor1 :=
  let scores := agent x
  let entropy := sumDim1 (scores.map (fun row => row.map bernEntropy))
  (sampler scores, scores, entropy)

/-- The external collaborators and constructor arguments of
`ScoreFunctionEstimator` (`sfe.py` 73-88).  `catLogProb` is the tensor
library's `Categorical(logits=scores).log_prob` for the encoder sample and
`decCatLogProb` the same primitive for a re-wrapped decoder; the encoder
exposes `baseline_type` as required by the interface. -/
structure SFECollab (E D L O : Type) where
  baseline_type : String
  encoder : E → List ℕ × Tensor2 × Tensor1
  decoder : List ℕ → D → O × DecLP × Tensor1
  lossFun : E → List ℕ → D → O → L → Tensor1 × List (String × Tensor1)
  catLogProb : Tensor2 → List ℕ → Tensor1
  decCatLogProb : Tensor2 → O → Tensor1
  encoder_entropy_coeff : ℚ
  decoder_entropy_coeff : ℚ

/-- The failure Python raises when `baseline_type` matches neither branch of
`sfe.py` 113-123 / 225-235: the name `baseline` is never bound, so its first
use fails. -/
def unboundBaselineMsg : String :=
  "local variable baseline referenced before assignment"

/-- `sfe.py` 113-123: the baseline branch of `ScoreFunctionEstimator.forward`.
Under `'runavg'` the stored scalar is read (pre-update value); under `'sample'`
a detached alternate latent draw `alt_z` (external randomness, an integer
tensor which carries no derivative) is pushed through the decoder and the task
loss; any other string leaves `baseline` unbound and the pass fails at its
first use. -/
def sfeSelectBaseline {E D L O : Type} (C : SFECollab E D L O)
    (st : BaselineState) (encoder_input : E) (decoder_input : D) (labels : L)
    (alt_z : List ℕ) : Except String Baseline :=
  if C.baseline_type = "runavg" then
    Except.ok (Baseline.scalar st.mean_baseline)
  else if C.baseline_type = "sample" then
    let dec2 := C.decoder alt_z decoder_input
    Except.ok (Baseline.perExample
      (C.lossFun encoder_input alt_z decoder_input dec2.1 labels).1)
  else
    Except.error unboundBaselineMsg

/-- `sfe.py` 125-128:
`((loss.detach() - baseline) * (encoder_sample_log_probs + decoder_sample_log_probs)).mean()`. -/
def sfePolicyLoss (loss : Tensor1) (baseline : Baseline)
    (encLP decLP : Tensor1) : Dual :=
  meanD (tmul (tsubBase (tdetach loss) baseline) (tadd encLP decLP))

/-- `sfe.py` 129-133:
`-(encoder_entropy.mean() * encoder_entropy_coeff + decoder_entropy.mean() * decoder_entropy_coeff)`. -/
def sfeEntropyLoss (encEnt decEnt : Tensor1) (cE cD : ℚ) : Dual :=
  -(meanD encEnt * Dual.const cE + meanD decEnt * Dual.const cD)

/-- The per-example task loss of `ScoreFunctionEstimator.forward`
(`sfe.py` 96-103): the loss function applied to the encoder input, the argmax
of the encoder scores, the decoder input, the decoder output and the labels. -/
def sfeTaskLoss {E D L O : Type} (C : SFECollab E D L O) (x : E) (y : D)
    (l : L) : Tensor1 :=
  (C.lossFun x (catArgmax (C.encoder x).2.1) y (C.decoder (C.encoder x).1 y).1 l).1

/-- The auxiliary diagnostics map returned by the task loss on the same call. -/
def sfeUserLogs {E D L O : Type} (C : SFECollab E D L O) (x : E) (y : D)
    (l : L) : List (String × Tensor1) :=
  (C.lossFun x (catArgmax (C.encoder x).2.1) y (C.decoder (C.encoder x).1 y).1 l).2

/-- The encoder entropy component of the encoder call (`sfe.py` 91-92). -/
def sfeEncEntropy {E D L O : Type} (C : SFECollab E D L O) (x : E) : Tensor1 :=
  (C.encoder x).2.2

/-- The decoder entropy component of the decoder call (`sfe.py` 93-94). -/
def sfeDecEntropy {E D L O : Type} (C : SFECollab E D L O) (x : E) (y : D) :
    Tensor1 :=
  (C.decoder (C.encoder x).1 y).2.2

/-- `sfe.py` 105-106: the log-probability of the sampled latent under the
encoder's categorical distribution. -/
def sfeEncLogProbs {E D L O : Type} (C : SFECollab E D L O) (x : E) : Tensor1 :=
  C.catLogProb (C.encoder x).2.1 (C.encoder x).1

/-- `sfe.py` 107-111: the decoder sample log-probabilities. -/
def sfeDecLogProbs {E D L O : Type} (C : SFECollab E D L O) (x : E) (y : D) :
    Tensor1 :=
  decoderSampleLogProbs C.decCatLogProb (C.decoder (C.encoder x).1 y).2.1
    (C.decoder (C.encoder x).1 y).1

/-- `sfe.py` 116-123: the per-example loss of the alternate rollout used as
the resampled baseline. -/
def sfeAltBaseline {E D L O : Type} (C : SFECollab E D L O) (x : E) (y : D)
    (l : L) (alt_z : List ℕ) : Tensor1 :=
  (C.lossFun x alt_z y (C.decoder alt_z y).1 l).1

/-- The diagnostics record built at `sfe.py` 142-149: user entries reduced to
their means, then the dedicated keys set. -/
structure SFELog where
  user : List (String × Dual)
  baseline : ℚ
  loss : Dual
  encoder_entropy : Dual
  decoder_entropy : Dual
deriving DecidableEq

/-- The value returned by `ScoreFunctionEstimator.forward` together with the
instance state after the call. -/
structure SFEResult where
  full_loss : Dual
  log : SFELog
  state : BaselineState
deriving DecidableEq

/-- `ScoreFunctionEstimator.forward` (`sfe.py` 90-151).  The pass fails
exactly when the baseline branch binds nothing; otherwise the surrogate,
entropy term, running-average update (training mode and `'runavg'` only,
after the policy loss read the pre-update value) and diagnostics are
composed as in the source. -/
def ScoreFunctionEstimator.forward {E D L O : Type} (C : SFECollab E D L O)
    (training : Bool) (encoder_input : E) (decoder_input : D) (labels : L)
    (alt_z : List ℕ) (st : BaselineState) : Except String SFEResult :=
  match sfeSelectBaseline C st encoder_input decoder_input labels alt_z with
  | Except.error e => Except.error e
  | Except.ok baseline =>
    let loss := sfeTaskLoss C encoder_input decoder_input labels
    let policy_loss := sfePolicyLoss loss baseline
      (sfeEncLogProbs C encoder_input)
      (sfeDecLogProbs C encoder_input decoder_input)
    let entropy_loss := sfeEntropyLoss (sfeEncEntropy C encoder_input)
      (sfeDecEntropy C encoder_input decoder_input)
      C.encoder_entropy_coeff C.decoder_entropy_coeff
    let st2 := if training = true ∧ C.baseline_type = "runavg"
      then runavgUpdate st (meanD (tdetach loss)).val else st
    let full_loss := policy_loss + entropy_loss + meanD loss
    Except.ok {
      full_loss := full_loss,
      log := {
        user := (sfeUserLogs C encoder_input decoder_input labels).map
          (fun kv => (kv.1, meanD kv.2)),
        baseline := st2.mean_baseline,
        loss := meanD loss,
        encoder_entropy := meanD (sfeEncEntropy C encoder_input),
        decoder_entropy := meanD (sfeDecEntropy C encoder_input decoder_input) },
      state := st2 }

/-- The external collaborators and constructor arguments of
`BitVectorScoreFunctionEstimator` (`sfe.py` 189-204).  `bernLogProb` is the
tensor library's elementwise `Bernoulli(logits=s).log_prob(bit)`. -/
structure BVSFECollab (E D L O : Type) where
  baseline_type : String
  encoder : E → List (List ℚ) × Tensor2 × Tensor1
  decoder : List (List ℚ) → D → O × Tensor1 × Tensor1
  lossFun : E → List (List ℚ) → D → O → L → Tensor1 × List (String × Tensor1)
  bernLogProb : Dual → ℚ → Dual
  encoder_entropy_coeff : ℚ
  decoder_entropy_coeff : ℚ

/-- `sfe.py` 225-235: the baseline branch of
`BitVectorScoreFunctionEstimator.forward`.  The alternate bit-vector draw
`alt_z` is external randomness, already detached (it carries no derivative). -/
def bvSfeSelectBaseline {E D L O : Type} (C : BVSFECollab E D L O)
    (st : BaselineState) (encoder_input : E) (decoder_input : D) (labels : L)
    (alt_z : List (List ℚ)) : Except String Baseline :=
  if C.baseline_type = "runavg" then
    Except.ok (Baseline.scalar st.mean_baseline)
  else if C.baseline_type = "sample" then
    let dec2 := C.decoder alt_z decoder_input
    Except.ok (Baseline.perExample
      (C.lossFun encoder_input alt_z decoder_input dec2.1 labels).1)
  else
    Except.error unboundBaselineMsg

/-- `sfe.py` 237: `(loss.detach() - baseline) * encoder_sample_log_probs`,
kept per example (no decoder log-probability term in this variant). -/
def bvSfePolicyLoss (loss : Tensor1) (baseline : Baseline) (encLP : Tensor1) :
    Tensor1 :=
  tmul (tsubBase (tdetach loss) baseline) encLP

/-- `sfe.py` 238: `- encoder_entropy * encoder_entropy_coeff`, kept per
example (no decoder entropy term in this variant). -/
def bvSfeEntropyLoss (encEnt : Tensor1) (cE : ℚ) : Tensor1 :=
  encEnt.map (fun d => -d * Dual.const cE)

/-- `sfe.py` 240: `(policy_loss + entropy_loss + loss).mean()`. -/
def bvSfeFullLoss (policy entropyL loss : Tensor1) : Dual :=
  meanD (tadd (tadd policy entropyL) loss)

/-- The per-example task loss of `BitVectorScoreFunctionEstimator.forward`
(`sfe.py` 212-219): the hard decision is the per-bit threshold at zero. -/
def bvTaskLoss {E D L O : Type} (C : BVSFECollab E D L O) (x : E) (y : D)
    (l : L) : Tensor1 :=
  (C.lossFun x (bvArgmax (C.encoder x).2.1) y (C.decoder (C.encoder x).1 y).1 l).1

/-- The auxiliary diagnostics map returned by the task loss on the same call. -/
def bvUserLogs {E D L O : Type} (C : BVSFECollab E D L O) (x : E) (y : D)
    (l : L) : List (String × Tensor1) :=
  (C.lossFun x (bvArgmax (C.encoder x).2.1) y (C.decoder (C.encoder x).1 y).1 l).2

/-- The encoder entropy component of the encoder call (`sfe.py` 207-208). -/
def bvEncEntropy {E D L O : Type} (C : BVSFECollab E D L O) (x : E) : Tensor1 :=
  (C.encoder x).2.2

/-- The decoder entropy component of the decoder call (`sfe.py` 209-210). -/
def bvDecEntropy {E D L O : Type} (C : BVSFECollab E D L O) (x : E) (y : D) :
    Tensor1 :=
  (C.decoder (C.encoder x).1 y).2.2

/-- `sfe.py` 221-223: sum across bits of the per-bit sample
log-probabilities. -/
def bvEncLogProbs {E D L O : Type} (C : BVSFECollab E D L O) (x : E) : Tensor1 :=
  bvSampleLogProbs C.bernLogProb (C.encoder x).2.1 (C.encoder x).1

/-- `sfe.py` 228-235: the per-example loss of the alternate rollout used as
the resampled baseline. -/
def bvAltBaseline {E D L O : Type} (C : BVSFECollab E D L O) (x : E) (y : D)
    (l : L) (alt_z : List (List ℚ)) : Tensor1 :=
  (C.lossFun x alt_z y (C.decoder alt_z y).1 l).1

/-- The diagnostics record built at `sfe.py` 247-255, including the raw
Bernoulli distribution object recorded by its logits. -/
structure BVSFELog where
  user : List (String × Dual)
  baseline : ℚ
  loss : Dual
  encoder_entropy : Dual
  decoder_entropy : Dual
  distr : Tensor2
deriving DecidableEq

/-- The value returned by `BitVectorScoreFunctionEstimator.forward` together
with the instance state after the call. -/
structure BVSFEResult where
  full_loss : Dual
  log : BVSFELog
  state : BaselineState
deriving DecidableEq

/-- `BitVectorScoreFunctionEstimator.forward` (`sfe.py` 206-257). -/
def BitVectorScoreFunctionEstimator.forward {E D L O : Type}
    (C : BVSFECollab E D L O) (training : Bool) (encoder_input : E)
    (decoder_input : D) (labels : L) (alt_z : List (List ℚ))
    (st : BaselineState) : Except String BVSFEResult :=
  match bvSfeSelectBaseline C st encoder_input decoder_input labels alt_z with
  | Except.error e => Except.error e
  | Except.ok baseline =>
    let loss := bvTaskLoss C encoder_input decoder_input labels
    let policy_loss := bvSfePolicyLoss loss baseline (bvEncLogProbs C encoder_input)
    let entropy_loss := bvSfeEntropyLoss (bvEncEntropy C encoder_input)
      C.encoder_entropy_coeff
    let full_loss := bvSfeFullLoss policy_loss entropy_loss loss
    let st2 := if training = true ∧ C.baseline_type = "runavg"
      then runavgUpdate st (meanD (tdetach loss)).val else st
    Except.ok {
      full_loss := full_loss,
      log := {
        user := (bvUserLogs C encoder_input decoder_input labels).map
          (fun kv => (kv.1, meanD kv.2)),
        baseline := st2.mean_baseline,
        loss := meanD loss,
        encoder_entropy := meanD (bvEncEntropy C encoder_input),
        decoder_entropy := meanD (bvDecEntropy C encoder_input decoder_input),
        distr := (C.encoder encoder_input).2.1 },
      state := st2 }

/-- `nvil.py` 90-92: `baseline_nn(encoder_input).squeeze()` is reshaped to
`(-1, loss.size(0))`, averaged over `dim=0` and squeezed.  Row-major reshape:
column `j` averages the entries at positions `i * n + j`. -/
def nvilReshapeMean (b : Tensor1) (n : ℕ) : Tensor1 :=
  (List.range n).map (fun j =>
    meanD ((List.range (b.length / n)).map (fun i => b.getD (i * n + j) 0)))

/-- `nvil.py` 94: `((loss - baseline).detach() * encoder_sample_log_probs).mean()`. -/
def nvilPolicyLoss (loss baseline encLP : Tensor1) : Dual :=
  meanD (tmul (tdetach (tsub loss baseline)) encLP)

/-- `nvil.py` 95: `-(encoder_entropy.mean() * encoder_entropy_coeff)`. -/
def nvilEntropyLoss (encEnt : Tensor1) (cE : ℚ) : Dual :=
  -(meanD encEnt * Dual.const cE)

/-- `nvil.py` 96: `((loss.detach() - baseline) ** 2).mean()`. -/
def nvilMse (loss baseline : Tensor1) : Dual :=
  meanD ((tsub (tdetach loss) baseline).map (fun d => d * d))

/-- The external collaborators and constructor arguments of `NVIL`
(`nvil.py` 55-70).  The encoder exposes the learned baseline network
`baseline_nn`; its `.squeeze()` on the `[batch, 1]` output is the identity in
the list model. -/
structure NVILCollab (E D L O : Type) where
  encoder : E → List ℕ × Tensor2 × Tensor1
  baseline_nn : E → Tensor1
  decoder : List ℕ → D → O
  lossFun : E → List ℕ → D → O → L → Tensor1 × List (String × Tensor1)
  catLogProb : Tensor2 → List ℕ → Tensor1
  encoder_entropy_coeff : ℚ
  decoder_entropy_coeff : ℚ

/-- The per-example task loss of `NVIL.forward` (`nvil.py` 78-85). -/
def nvilTaskLoss {E D L O : Type} (C : NVILCollab E D L O) (x : E) (y : D)
    (l : L) : Tensor1 :=
  (C.lossFun x (catArgmax (C.encoder x).2.1) y (C.decoder (C.encoder x).1 y) l).1

/-- The auxiliary diagnostics map returned by the task loss on the same call. -/
def nvilUserLogs {E D L O : Type} (C : NVILCollab E D L O) (x : E) (y : D)
    (l : L) : List (String × Tensor1) :=
  (C.lossFun x (catArgmax (C.encoder x).2.1) y (C.decoder (C.encoder x).1 y) l).2

/-- The diagnostics record built at `nvil.py` 100-106; `baseline` is logged as
the whole per-example tensor. -/
structure NVILLog where
  user : List (String × Dual)
  baseline : Tensor1
  loss : Dual
  encoder_entropy : Dual
deriving DecidableEq

/-- The value returned by `NVIL.forward` together with the (never mutated)
instance state. -/
structure NVILResult where
  full_loss : Dual
  log : NVILLog
  state : BaselineState
deriving DecidableEq

/-- `NVIL.forward` (`nvil.py` 72-108).  The class carries `mean_baseline` and
`n_points` attributes (`nvil.py` 69-70) but its forward never assigns them, so
the state is returned unchanged; the `training` flag is not consulted. -/
def NVIL.forward {E D L O : Type} (C : NVILCollab E D L O) (training : Bool)
    (encoder_input : E) (decoder_input : D) (labels : L)
    (st : BaselineState) : NVILResult :=
  let loss := nvilTaskLoss C encoder_input decoder_input labels
  let baseline := nvilReshapeMean (C.baseline_nn encoder_input) loss.length
  let policy_loss := nvilPolicyLoss loss baseline
    (C.catLogProb (C.encoder encoder_input).2.1 (C.encoder encoder_input).1)
  let entropy_loss := nvilEntropyLoss (C.encoder encoder_input).2.2
    C.encoder_entropy_coeff
  let mse := nvilMse loss baseline
  let full_loss := policy_loss + meanD loss + mse + entropy_loss
  { full_loss := full_loss,
    log := {
      user := (nvilUserLogs C encoder_input decoder_input labels).map
        (fun kv => (kv.1, meanD kv.2)),
      baseline := baseline,
      loss := meanD loss,
      encoder_entropy := meanD (C.encoder encoder_input).2.2 },
    state := st }

/-- `nvil.py` 167: `(loss - baseline).detach() * encoder_sample_log_probs`,
kept per example. -/
def bvNvilPolicyLoss (loss baseline encLP : Tensor1) : Tensor1 :=
  tmul (tdetach (tsub loss baseline)) encLP

/-- `nvil.py` 168: `- encoder_entropy * encoder_entropy_coeff`, kept per
example. -/
def bvNvilEntropyLoss (encEnt : Tensor1) (cE : ℚ) : Tensor1 :=
  encEnt.map (fun d => -d * Dual.const cE)

/-- `nvil.py` 169: `(loss.detach() - baseline) ** 2`, kept per example. -/
def bvNvilMse (loss baseline : Tensor1) : Tensor1 :=
  (tsub (tdetach loss) baseline).map (fun d => d * d)

/-- `nvil.py` 171: `(policy_loss + loss + mse + entropy_loss).mean()`. -/
def bvNvilFullLoss (policy loss mse entropyL : Tensor1) : Dual :=
  meanD (tadd (tadd (tadd policy loss) mse) entropyL)

/-- The external collaborators and constructor arguments of `BitVectorNVIL`
(`nvil.py` 130-145). -/
structure BVNVILCollab (E D L O : Type) where
  encoder : E → List (List ℚ) × Tensor2 × Tensor1
  baseline_nn : E → Tensor1
  decoder : List (List ℚ) → D → O
  lossFun : E → List (List ℚ) → D → O → L → Tensor1 × List (String × Tensor1)
  bernLogProb : Dual → ℚ → Dual
  encoder_entropy_coeff : ℚ
  decoder_entropy_coeff : ℚ

/-- The per-example task loss of `BitVectorNVIL.forward` (`nvil.py` 152-159). -/
def bvNvilTaskLoss {E D L O : Type} (C : BVNVILCollab E D L O) (x : E) (y : D)
    (l : L) : Tensor1 :=
  (C.lossFun x (bvArgmax (C.encoder x).2.1) y (C.decoder (C.encoder x).1 y) l).1

/-- The auxiliary diagnostics map returned by the task loss on the same call. -/
def bvNvilUserLogs {E D L O : Type} (C : BVNVILCollab E D L O) (x : E) (y : D)
    (l : L) : List (String × Tensor1) :=
  (C.lossFun x (bvArgmax (C.encoder x).2.1) y (C.decoder (C.encoder x).1 y) l).2

/-- The diagnostics record built at `nvil.py` 173-180. -/
structure BVNVILLog where
  user : List (String × Dual)
  baseline : Tensor1
  loss : Dual
  encoder_entropy : Dual
  distr : Tensor2
deriving DecidableEq

/-- The value returned by `BitVectorNVIL.forward` together with the (never
mutated) instance state. -/
structure BVNVILResult where
  full_loss : Dual
  log : BVNVILLog
  state : BaselineState
deriving DecidableEq

/-- `BitVectorNVIL.forward` (`nvil.py` 147-182).  As in `NVIL.forward`, the
baseline attributes are never assigned and `training` is not consulted. -/
def BitVectorNVIL.forward {E D L O : Type} (C : BVNVILCollab E D L O)
    (training : Bool) (encoder_input : E) (decoder_input : D) (labels : L)
    (st : BaselineState) : BVNVILResult :=
  let loss := bvNvilTaskLoss C encoder_input decoder_input labels
  let baseline := C.baseline_nn encoder_input
  let policy_loss := bvNvilPolicyLoss loss baseline
    (bvSampleLogProbs C.bernLogProb (C.encoder encoder_input).2.1
      (C.encoder encoder_input).1)
  let entropy_loss := bvNvilEntropyLoss (C.encoder encoder_input).2.2
    C.encoder_entropy_coeff
  let mse := bvNvilMse loss baseline
  let full_loss := bvNvilFullLoss policy_loss loss mse entropy_loss
  { full_loss := full_loss,
    log := {
      user := (bvNvilUserLogs C encoder_input decoder_input labels).map
        (fun kv => (kv.1, meanD kv.2)),
      baseline := baseline,
      loss := meanD loss,
      encoder_entropy := meanD (C.encoder encoder_input).2.2,
      distr := (C.encoder encoder_input).2.1 },
    state := st }

/-- The policy surrogate exactly as the specification words it for the SFE
variants: `detach(per_example_loss - baseline) * (encoder_log_prob +
decoder_log_prob)`, per example, with a per-example baseline tensor. -/
def specPolicyLossSFE (loss baseline encLP decLP : Tensor1) : Tensor1 :=
  tmul (tdetach (tsub loss baseline)) (tadd encLP decLP)

/-- The entropy regularisation exactly as the specification words it:
`-(encoder_entropy * encoder_coeff + decoder_entropy * decoder_coeff)`,
mean-reduced. -/
def specEntropyLoss (encEnt decEnt : Tensor1) (cE cD : ℚ) : Dual :=
  -(meanD encEnt * Dual.const cE + meanD decEnt * Dual.const cD)

/-- A concrete categorical SFE estimator instance with the running-average
baseline policy, used to exercise the theorems on closed inputs. -/
def fixtureRun : SFECollab Unit Unit Unit Unit :=
  { baseline_type := "runavg",
    encoder := fun _ => ([], [], []),
    decoder := fun _ _ => ((), DecLP.oneD [], []),
    lossFun := fun _ _ _ _ _ => ([], []),
    catLogProb := fun _ _ => [],
    decCatLogProb := fun _ _ => [],
    encoder_entropy_coeff := 0,
    decoder_entropy_coeff := 0 }

/-- The same instance with the resampled-rollout baseline policy. -/
def fixtureSample : SFECollab Unit Unit Unit Unit :=
  { fixtureRun with baseline_type := "sample" }

/-- The same instance with an unrecognised baseline-type string. -/
def fixtureFoo : SFECollab Unit Unit Unit Unit :=
  { fixtureRun with baseline_type := "foo" }

/-- A concrete bit-vector SFE estimator instance with the running-average
baseline policy. -/
def fixtureBVRun : BVSFECollab Unit Unit Unit Unit :=
  { baseline_type := "runavg",
    encoder := fun _ => ([], [], []),
    decoder := fun _ _ => ((), [], []),
    lossFun := fun _ _ _ _ _ => ([], []),
    bernLogProb := fun s _ => s,
    encoder_entropy_coeff := 0,
    decoder_entropy_coeff := 0 }

/-- The same bit-vector instance with the resampled-rollout baseline policy. -/
def fixtureBVSample : BVSFECollab Unit Unit Unit Unit :=
  { fixtureBVRun with baseline_type := "sample" }

/-- The same bit-vector instance with an unrecognised baseline-type string. -/
def fixtureBVFoo : BVSFECollab Unit Unit Unit Unit :=
  { fixtureBVRun with baseline_type := "foo" }

/-- The fresh instance state (both attributes `0.0`). -/
def st0 : BaselineState := ⟨0, 0⟩

/-- The value `ScoreFunctionEstimator.forward` returns on `fixtureRun` in
training mode from the fresh state. -/
def fixtureRunRes : SFEResult :=
  { full_loss := ⟨0, 0⟩,
    log := { user := [], baseline := 0, loss := ⟨0, 0⟩,
             encoder_entropy := ⟨0, 0⟩, decoder_entropy := ⟨0, 0⟩ },
    state := ⟨0, 1⟩ }

/-- The value `BitVectorScoreFunctionEstimator.forward` returns on
`fixtureBVSample` from the fresh state. -/
def fixtureBVSampleRes : BVSFEResult :=
  { full_loss := ⟨0, 0⟩,
    log := { user := [], baseline := 0, loss := ⟨0, 0⟩,
             encoder_entropy := ⟨0, 0⟩, decoder_entropy := ⟨0, 0⟩,
             distr := [] },
    state := ⟨0, 0⟩ }

@[simp] theorem Dual.val_add (a b : Dual) : (a + b).val = a.val + b.val := rfl

@[simp] theorem Dual.tan_add (a b : Dual) : (a + b).tan = a.tan + b.tan := rfl

@[simp] theorem Dual.val_sub (a b : Dual) : (a - b).val = a.val - b.val := rfl

@[simp] theorem Dual.tan_sub (a b : Dual) : (a - b).tan = a.tan - b.tan := rfl

@[simp] theorem Dual.val_neg (a : Dual) : (-a).val = -a.val := rfl

@[simp] theorem Dual.tan_neg (a : Dual) : (-a).tan = -a.tan := rfl

@[simp] theorem Dual.val_mul (a b : Dual) : (a * b).val = a.val * b.val := rfl

@[simp] theorem Dual.tan_mul (a b : Dual) :
    (a * b).tan = a.tan * b.val + a.val * b.tan := rfl

@[simp] theorem Dual.val_zero : (0 : Dual).val = 0 := rfl

@[simp] theorem Dual.tan_zero : (0 : Dual).tan = 0 := rfl

@[simp] theorem Dual.val_const (c : ℚ) : (Dual.const c).val = c := rfl

@[simp] theorem Dual.tan_const (c : ℚ) : (Dual.const c).tan = 0 := rfl

@[simp] theorem ddetach_val (d : Dual) : (ddetach d).val = d.val := rfl

@[simp] theorem ddetach_tan (d : Dual) : (ddetach d).tan = 0 := rfl

theorem Dual.ext2 {a b : Dual} (h1 : a.val = b.val) (h2 : a.tan = b.tan) :
    a = b := by
  cases a; cases b; cases h1; cases h2; rfl

theorem d_add_zero (a : Dual) : a + 0 = a :=
  Dual.ext2 (by simp) (by simp)

theorem d_zero_add (a : Dual) : 0 + a = a :=
  Dual.ext2 (by simp) (by simp)

theorem d_add_add_comm (a b c d : Dual) :
    (a + b) + (c + d) = (a + c) + (b + d) :=
  Dual.ext2 (by simp; ring) (by simp; ring)

theorem d_right_distrib (a b c : Dual) : (a + b) * c = a * c + b * c :=
  Dual.ext2 (by simp; ring) (by simp; ring)

theorem d_negmul_mulc (a k c : Dual) : (-(a * k)) * c = -((a * c) * k) :=
  Dual.ext2 (by simp; ring) (by simp; ring)

theorem ddetach_sub_const (d : Dual) (b : ℚ) :
    ddetach (d - Dual.const b) = ddetach d - Dual.const b :=
  Dual.ext2 (by simp) (by simp)

theorem length_tadd (a b : Tensor1) : (tadd a b).length = min a.length b.length := by
  simp [tadd]

theorem dsum_tadd (a b : Tensor1) (h : a.length = b.length) :
    dsum (tadd a b) = dsum a + dsum b := by
  induction a generalizing b with
  | nil =>
    cases b with
    | nil => simp [tadd, dsum, d_add_zero]
    | cons y ys => simp at h
  | cons x xs ih =>
    cases b with
    | nil => simp at h
    | cons y ys =>
      have h' : xs.length = ys.length := by simpa using h
      show (x + y) + dsum (tadd xs ys) = (x + dsum xs) + (y + dsum ys)
      rw [ih ys h']
      exact d_add_add_comm x y (dsum xs) (dsum ys)

theorem meanD_tadd (a b : Tensor1) (h : a.length = b.length) :
    meanD (tadd a b) = meanD a + meanD b := by
  unfold meanD
  rw [dsum_tadd a b h]
  have hl : (tadd a b).length = a.length := by
    rw [length_tadd, h, min_self]
  rw [hl, ← h]
  exact d_right_distrib (dsum a) (dsum b) (Dual.const ((a.length : ℚ)⁻¹))

theorem dsum_map_negmul (t : Tensor1) (k : Dual) :
    dsum (t.map (fun d => -d * k)) = -(dsum t * k) := by
  induction t with
  | nil => exact Dual.ext2 (by simp [dsum]) (by simp [dsum])
  | cons x xs ih =>
    show (-x * k) + dsum (xs.map (fun d => -d * k)) = -((x + dsum xs) * k)
    rw [ih]
    exact Dual.ext2 (by simp; ring) (by simp; ring)

theorem meanD_map_negmul (t : Tensor1) (k : Dual) :
    meanD (t.map (fun d => -d * k)) = -(meanD t * k) := by
  unfold meanD
  rw [List.length_map, dsum_map_negmul]
  exact d_negmul_mulc (dsum t) k (Dual.const ((t.length : ℚ)⁻¹))

theorem tdetach_tsubQ (t : Tensor1) (b : ℚ) :
    tdetach (tsubQ t b) = tsubQ (tdetach t) b := by
  induction t with
  | nil => rfl
  | cons x xs ih =>
    show ddetach (x - Dual.const b) :: tdetach (tsubQ xs b)
        = (ddetach x - Dual.const b) :: tsubQ (tdetach xs) b
    rw [ih, ddetach_sub_const]

theorem sfe_select_runavg {E D L O : Type} (C : SFECollab E D L O)
    (hb : C.baseline_type = "runavg") (st : BaselineState) (x : E) (y : D)
    (l : L) (az : List ℕ) :
    sfeSelectBaseline C st x y l az
      = Except.ok (Baseline.scalar st.mean_baseline) := by
  unfold sfeSelectBaseline
  rw [hb]
  rw [if_pos rfl]

theorem sfe_select_sample {E D L O : Type} (C : SFECollab E D L O)
    (hs : C.baseline_type = "sample") (st : BaselineState) (x : E) (y : D)
    (l : L) (az : List ℕ) :
    sfeSelectBaseline C st x y l az
      = Except.ok (Baseline.perExample (sfeAltBaseline C x y l az)) := by
  unfold sfeSelectBaseline sfeAltBaseline
  rw [hs]
  rw [if_neg (by decide), if_pos rfl]

theorem sfe_select_unknown {E D L O : Type} (C : SFECollab E D L O)
    (h1 : C.baseline_type ≠ "runavg") (h2 : C.baseline_type ≠ "sample")
    (st : BaselineState) (x : E) (y : D) (l : L) (az : List ℕ) :
    sfeSelectBaseline C st x y l az = Except.error unboundBaselineMsg := by
  unfold sfeSelectBaseline
  rw [if_neg h1, if_neg h2]

theorem bv_select_runavg {E D L O : Type} (C : BVSFECollab E D L O)
    (hb : C.baseline_type = "runavg") (st : BaselineState) (x : E) (y : D)
    (l : L) (az : List (List ℚ)) :
    bvSfeSelectBaseline C st x y l az
      = Except.ok (Baseline.scalar st.mean_baseline) := by
  unfold bvSfeSelectBaseline
  rw [hb]
  rw [if_pos rfl]

theorem bv_select_sample {E D L O : Type} (C : BVSFECollab E D L O)
    (hs : C.baseline_type = "sample") (st : BaselineState) (x : E) (y : D)
    (l : L) (az : List (List ℚ)) :
    bvSfeSelectBaseline C st x y l az
      = Except.ok (Baseline.perExample (bvAltBaseline C x y l az)) := by
  unfold bvSfeSelectBaseline bvAltBaseline
  rw [hs]
  rw [if_neg (by decide), if_pos rfl]

theorem bv_select_unknown {E D L O : Type} (C : BVSFECollab E D L O)
    (h1 : C.baseline_type ≠ "runavg") (h2 : C.baseline_type ≠ "sample")
    (st : BaselineState) (x : E) (y : D) (l : L) (az : List (List ℚ)) :
    bvSfeSelectBaseline C st x y l az = Except.error unboundBaselineMsg := by
  unfold bvSfeSelectBaseline
  rw [if_neg h1, if_neg h2]

theorem sfe_forward_state {E D L O : Type} (C : SFECollab E D L O) (tr : Bool)
    (x : E) (y : D) (l : L) (az : List ℕ) (st : BaselineState) (res : SFEResult)
    (h : ScoreFunctionEstimator.forward C tr x y l az st = Except.ok res) :
    res.state = if tr = true ∧ C.baseline_type = "runavg"
      then runavgUpdate st (meanD (tdetach (sfeTaskLoss C x y l))).val
      else st := by
  unfold ScoreFunctionEstimator.forward at h
  cases hsel : sfeSelectBaseline C st x y l az with
  | error e => rw [hsel] at h; simp at h
  | ok b =>
    rw [hsel] at h
    simp only [Except.ok.injEq] at h
    subst h
    rfl

theorem sfe_forward_logbaseline {E D L O : Type} (C : SFECollab E D L O)
    (tr : Bool) (x : E) (y : D) (l : L) (az : List ℕ) (st : BaselineState)
    (res : SFEResult)
    (h : ScoreFunctionEstimator.forward C tr x y l az st = Except.ok res) :
    res.log.baseline = res.state.mean_baseline := by
  unfold ScoreFunctionEstimator.forward at h
  cases hsel : sfeSelectBaseline C st x y l az with
  | error e => rw [hsel] at h; simp at h
  | ok b =>
    rw [hsel] at h
    simp only [Except.ok.injEq] at h
    subst h
    rfl

theorem sfe_forward_full_loss {E D L O : Type} (C : SFECollab E D L O)
    (tr : Bool) (x : E) (y : D) (l : L) (az : List ℕ) (st : BaselineState)
    (b : Baseline) (res : SFEResult)
    (hsel : sfeSelectBaseline C st x y l az = Except.ok b)
    (h : ScoreFunctionEstimator.forward C tr x y l az st = Except.ok res) :
    res.full_loss
      = sfePolicyLoss (sfeTaskLoss C x y l) b (sfeEncLogProbs C x)
          (sfeDecLogProbs C x y)
        + sfeEntropyLoss (sfeEncEntropy C x) (sfeDecEntropy C x y)
            C.encoder_entropy_coeff C.decoder_entropy_coeff
        + meanD (sfeTaskLoss C x y l) := by
  unfold ScoreFunctionEstimator.forward at h
  rw [hsel] at h
  simp only [Except.ok.injEq] at h
  subst h
  rfl

theorem sfe_forward_error {E D L O : Type} (C : SFECollab E D L O) (tr : Bool)
    (x : E) (y : D) (l : L) (az : List ℕ) (st : BaselineState) (e : String)
    (hsel : sfeSelectBaseline C st x y l az = Except.error e) :
    ScoreFunctionEstimator.forward C tr x y l az st = Except.error e := by
  unfold ScoreFunctionEstimator.forward
  rw [hsel]

theorem bv_forward_state {E D L O : Type} (C : BVSFECollab E D L O) (tr : Bool)
    (x : E) (y : D) (l : L) (az : List (List ℚ)) (st : BaselineState)
    (res : BVSFEResult)
    (h : BitVectorScoreFunctionEstimator.forward C tr x y l az st
      = Except.ok res) :
    res.state = if tr = true ∧ C.baseline_type = "runavg"
      then runavgUpdate st (meanD (tdetach (bvTaskLoss C x y l))).val
      else st := by
  unfold BitVectorScoreFunctionEstimator.forward at h
  cases hsel : bvSfeSelectBaseline C st x y l az with
  | error e => rw [hsel] at h; simp at h
  | ok b =>
    rw [hsel] at h
    simp only [Except.ok.injEq] at h
    subst h
    rfl

theorem bv_forward_logbaseline {E D L O : Type} (C : BVSFECollab E D L O)
    (tr : Bool) (x : E) (y : D) (l : L) (az : List (List ℚ))
    (st : BaselineState) (res : BVSFEResult)
    (h : BitVectorScoreFunctionEstimator.forward C tr x y l az st
      = Except.ok res) :
    res.log.baseline = res.state.mean_baseline := by
  unfold BitVectorScoreFunctionEstimator.forward at h
  cases hsel : bvSfeSelectBaseline C st x y l az with
  | error e => rw [hsel] at h; simp at h
  | ok b =>
    rw [hsel] at h
    simp only [Except.ok.injEq] at h
    subst h
    rfl

theorem bv_forward_full_loss {E D L O : Type} (C : BVSFECollab E D L O)
    (tr : Bool) (x : E) (y : D) (l : L) (az : List (List ℚ))
    (st : BaselineState) (b : Baseline) (res : BVSFEResult)
    (hsel : bvSfeSelectBaseline C st x y l az = Except.ok b)
    (h : BitVectorScoreFunctionEstimator.forward C tr x y l az st
      = Except.ok res) :
    res.full_loss
      = bvSfeFullLoss
          (bvSfePolicyLoss (bvTaskLoss C x y l) b (bvEncLogProbs C x))
          (bvSfeEntropyLoss (bvEncEntropy C x) C.encoder_entropy_coeff)
          (bvTaskLoss C x y l) := by
  unfold BitVectorScoreFunctionEstimator.forward at h
  rw [hsel] at h
  simp only [Except.ok.injEq] at h
  subst h
  rfl

theorem bv_forward_error {E D L O : Type} (C : BVSFECollab E D L O) (tr : Bool)
    (x : E) (y : D) (l : L) (az : List (List ℚ)) (st : BaselineState)
    (e : String)
    (hsel : bvSfeSelectBaseline C st x y l az = Except.error e) :
    BitVectorScoreFunctionEstimator.forward C tr x y l az st
      = Except.error e := by
  unfold BitVectorScoreFunctionEstimator.forward
  rw [hsel]

theorem runavgUpdate_ne (st : BaselineState) (m : ℚ) :
    runavgUpdate st m ≠ st := by
  intro h
  have h2 : st.n_points + 1 = st.n_points :=
    congrArg BaselineState.n_points h
  linarith

theorem runavg_foldl_closed (ms : List ℚ) : ∀ (k : ℕ) (b : ℚ), (k = 0 → b = 0) →
    List.foldl runavgUpdate ⟨b, (k : ℚ)⟩ ms
      = ⟨((k : ℚ) * b + ms.sum) / ((k : ℚ) + ms.length),
          (k : ℚ) + ms.length⟩ := by
  induction ms with
  | nil =>
    intro k b hk
    simp only [List.foldl_nil, List.sum_nil, List.length_nil, Nat.cast_zero,
      add_zero]
    rcases Nat.eq_zero_or_pos k with hk0 | hkpos
    · subst hk0
      rw [hk rfl]
      refine congrArg₂ BaselineState.mk ?_ rfl
      norm_num
    · have hne : ((k : ℚ)) ≠ 0 := by
        exact_mod_cast Nat.pos_iff_ne_zero.mp hkpos
      refine congrArg₂ BaselineState.mk ?_ rfl
      rw [mul_comm, mul_div_assoc, div_self hne, mul_one]
  | cons m rest ih =>
    intro k b hk
    have step : runavgUpdate ⟨b, (k : ℚ)⟩ m
        = ⟨b + (m - b) / ((k : ℚ) + 1), (k : ℚ) + 1⟩ := rfl
    have cast1 : ((k : ℚ) + 1) = ((k + 1 : ℕ) : ℚ) := by push_cast; ring
    rw [List.foldl_cons, step, cast1,
      ih (k + 1) _ (fun hc => absurd hc (Nat.succ_ne_zero k))]
    have hne : ((k : ℚ) + 1) ≠ 0 := by positivity
    simp only [List.sum_cons, List.length_cons]
    refine congrArg₂ BaselineState.mk ?_ ?_
    · push_cast
      have hd : ((k : ℚ) + 1 + rest.length) ≠ 0 := by positivity
      field_simp
      ring
    · push_cast
      ring

theorem runavg_foldl_from_zero (ms : List ℚ) :
    List.foldl runavgUpdate ⟨0, 0⟩ ms
      = ⟨ms.sum / ms.length, (ms.length : ℚ)⟩ := by
  have h := runavg_foldl_closed ms 0 0 (fun _ => rfl)
  simpa using h

theorem Dual.eq_iff (a b : Dual) : a = b ↔ a.val = b.val ∧ a.tan = b.tan := by
  constructor
  · intro h
    subst h
    exact ⟨rfl, rfl⟩
  · intro h
    exact Dual.ext2 h.1 h.2

/-- C1 counterexample: the claimed formula
`detach(per_example_loss - baseline) * (encoder_log_prob + decoder_log_prob)`
does not match the code.  First, `BitVectorScoreFunctionEstimator` multiplies
by the encoder log-probability alone (with per-example loss 2, baseline 0,
encoder log-probability 3 and decoder log-probability 5 the code yields 6 while
the claimed formula yields 16).  Second, with the resampled baseline the code
computes `loss.detach() - baseline`, so a baseline carrying derivative 1 leaks
its derivative into the surrogate, whereas the claimed all-detached difference
would not. -/
theorem C1_counterexample :
    bvSfePolicyLoss [Dual.const 2] (Baseline.scalar 0) [Dual.const 3]
        ≠ specPolicyLossSFE [Dual.const 2] [Dual.const 0] [Dual.const 3]
            [Dual.const 5]
    ∧ sfePolicyLoss [Dual.const 1] (Baseline.perExample [⟨0, 1⟩])
          [Dual.const 1] [Dual.const 0]
        ≠ meanD (specPolicyLossSFE [Dual.const 1] [⟨0, 1⟩] [Dual.const 1]
            [Dual.const 0]) := by
  constructor
  · intro h
    simp [bvSfePolicyLoss, specPolicyLossSFE, tmul, tsubBase, tsubQ, tdetach,
      tsub, tadd, ddetach, Dual.const, Dual.eq_iff] at h
  · intro h
    simp [sfePolicyLoss, specPolicyLossSFE, meanD, dsum, tmul, tsubBase, tsubQ,
      tdetach, tsub, tadd, ddetach, Dual.const, Dual.eq_iff] at h

/-- C1 (amended): the per-variant policy surrogates are:
`NVIL` and `BitVectorNVIL` use `detach(loss - baseline) * encoder_log_prob`
(the whole difference detached, decoder log-probability never included);
`ScoreFunctionEstimator` uses
`(detach(loss) - baseline) * (encoder_log_prob + decoder_log_prob)`;
`BitVectorScoreFunctionEstimator` uses
`(detach(loss) - baseline) * encoder_log_prob` (decoder log-probability not
included).  Under the running-average policy the baseline is a stored scalar
with no derivative, so there `detach(loss) - baseline` coincides with the
claimed `detach(loss - baseline)`; under the resampled policy the baseline is
subtracted outside the detach, so its derivative flows into the surrogate. -/
theorem C1_amended_policy_loss :
    (∀ (loss encLP decLP : Tensor1) (b : ℚ),
      sfePolicyLoss loss (Baseline.scalar b) encLP decLP
        = meanD (tmul (tdetach (tsubQ loss b)) (tadd encLP decLP)))
    ∧ (∀ (loss encLP decLP bp : Tensor1),
      sfePolicyLoss loss (Baseline.perExample bp) encLP decLP
        = meanD (tmul (tsub (tdetach loss) bp) (tadd encLP decLP)))
    ∧ (∀ (loss encLP : Tensor1) (b : ℚ),
      bvSfePolicyLoss loss (Baseline.scalar b) encLP
        = tmul (tdetach (tsubQ loss b)) encLP)
    ∧ (∀ (loss encLP bp : Tensor1),
      bvSfePolicyLoss loss (Baseline.perExample bp) encLP
        = tmul (tsub (tdetach loss) bp) encLP)
    ∧ (∀ (loss baseline encLP : Tensor1),
      nvilPolicyLoss loss baseline encLP
        = meanD (tmul (tdetach (tsub loss baseline)) encLP))
    ∧ (∀ (loss baseline encLP : Tensor1),
      bvNvilPolicyLoss loss baseline encLP
        = tmul (tdetach (tsub loss baseline)) encLP) := by
  refine ⟨?_, ?_, ?_, ?_, ?_, ?_⟩
  · intro loss encLP decLP b
    unfold sfePolicyLoss
    rw [show tsubBase (tdetach loss) (Baseline.scalar b)
        = tsubQ (tdetach loss) b from rfl]
    rw [← tdetach_tsubQ]
  · intro loss encLP decLP bp
    rfl
  · intro loss encLP b
    unfold bvSfePolicyLoss
    rw [show tsubBase (tdetach loss) (Baseline.scalar b)
        = tsubQ (tdetach loss) b from rfl]
    rw [← tdetach_tsubQ]
  · intro loss encLP bp
    rfl
  · intro loss baseline encLP
    rfl
  · intro loss baseline encLP
    rfl

/-- C2 counterexample: in `BitVectorScoreFunctionEstimator` the decoder
entropy never enters the entropy term.  With encoder entropy 2, decoder
entropy 2 and both coefficients 1 the code's term (mean-reduced) is -2, while
the claimed formula gives -4. -/
theorem C2_counterexample :
    meanD (bvSfeEntropyLoss [Dual.const 2] 1)
      ≠ specEntropyLoss [Dual.const 2] [Dual.const 2] 1 1 := by
  intro h
  simp [bvSfeEntropyLoss, specEntropyLoss, meanD, dsum, Dual.const,
    Dual.eq_iff] at h

/-- C2 (amended): `ScoreFunctionEstimator` computes
`-(mean(encoder_entropy) * encoder_coeff + mean(decoder_entropy) * decoder_coeff)`
exactly as the specification words it, but
`BitVectorScoreFunctionEstimator` computes only
`- encoder_entropy * encoder_coeff` per example; even after mean reduction the
decoder entropy term is absent from the bit-vector variant. -/
theorem C2_amended_entropy_loss :
    (∀ (encEnt decEnt : Tensor1) (cE cD : ℚ),
      sfeEntropyLoss encEnt decEnt cE cD = specEntropyLoss encEnt decEnt cE cD)
    ∧ (∀ (encEnt : Tensor1) (cE : ℚ),
      meanD (bvSfeEntropyLoss encEnt cE)
        = -(meanD encEnt * Dual.const cE)) := by
  constructor
  · intro encEnt decEnt cE cD
    rfl
  · intro encEnt cE
    exact meanD_map_negmul encEnt (Dual.const cE)

/-- C9: the deterministic sampling wrapper returns the wrapped agent's output
unchanged together with log-probability and entropy placeholders that are the
zero tensor of shape `[1]`; being a pure function of its input, it consumes no
randomness and two calls on the same input agree. -/
theorem C9_deterministic_wrapper {A B : Type} (agent : A → B) (x : A) :
    SFEDeterministicWrapper.forward agent x
      = (agent x, [Dual.const 0], [Dual.const 0]) := rfl

/-- C3: for the running-average policy, folding the update over the batch
means `m_1..m_k` from the fresh state yields `mean_baseline` equal to their
arithmetic mean with `n_points = k` (also for every prefix, giving the value
after step `k`); during a pass the baseline handed to the policy loss is the
incoming (pre-update) `mean_baseline`; a training-mode forward pass advances
the state by exactly one update with the batch mean of the detached loss; and
a scalar baseline is broadcast, subtracting the same value from every example
of the batch. -/
theorem C3_runavg_baseline {E D L O : Type} (C : SFECollab E D L O)
    (hb : C.baseline_type = "runavg") (st : BaselineState) (x : E) (y : D)
    (l : L) (az : List ℕ) :
    (∀ ms : List ℚ,
      List.foldl runavgUpdate ⟨0, 0⟩ ms
        = ⟨ms.sum / ms.length, (ms.length : ℚ)⟩)
    ∧ (∀ (ms : List ℚ) (k : ℕ),
      List.foldl runavgUpdate ⟨0, 0⟩ (ms.take k)
        = ⟨(ms.take k).sum / (ms.take k).length, ((ms.take k).length : ℚ)⟩)
    ∧ sfeSelectBaseline C st x y l az
        = Except.ok (Baseline.scalar st.mean_baseline)
    ∧ (∀ res, ScoreFunctionEstimator.forward C true x y l az st = Except.ok res →
        res.state = runavgUpdate st (meanD (tdetach (sfeTaskLoss C x y l))).val)
    ∧ (∀ (t : Tensor1) (b : ℚ),
        tsubBase t (Baseline.scalar b) = t.map (fun d => d - Dual.const b)) := by
  refine ⟨?_, ?_, ?_, ?_, ?_⟩
  · intro ms
    exact runavg_foldl_from_zero ms
  · intro ms k
    exact runavg_foldl_from_zero (ms.take k)
  · exact sfe_select_runavg C hb st x y l az
  · intro res h
    have hst := sfe_forward_state C true x y l az st res h
    rw [hst, if_pos ⟨rfl, hb⟩]
  · intro t b
    rfl

/-- C4: after a successful forward pass of either SFE variant the instance
state differs from the incoming one exactly when the pass ran in training mode
with the running-average baseline policy; both NVIL variants return the state
unchanged on every pass. -/
theorem C4_state_mutation_iff {E D L O : Type} :
    (∀ (C : SFECollab E D L O) (tr : Bool) (x : E) (y : D) (l : L)
        (az : List ℕ) (st : BaselineState) (res : SFEResult),
      ScoreFunctionEstimator.forward C tr x y l az st = Except.ok res →
        (res.state ≠ st ↔ tr = true ∧ C.baseline_type = "runavg"))
    ∧ (∀ (C : BVSFECollab E D L O) (tr : Bool) (x : E) (y : D) (l : L)
        (az : List (List ℚ)) (st : BaselineState) (res : BVSFEResult),
      BitVectorScoreFunctionEstimator.forward C tr x y l az st = Except.ok res →
        (res.state ≠ st ↔ tr = true ∧ C.baseline_type = "runavg"))
    ∧ (∀ (C : NVILCollab E D L O) (tr : Bool) (x : E) (y : D) (l : L)
        (st : BaselineState), (NVIL.forward C tr x y l st).state = st)
    ∧ (∀ (C : BVNVILCollab E D L O) (tr : Bool) (x : E) (y : D) (l : L)
        (st : BaselineState), (BitVectorNVIL.forward C tr x y l st).state = st) := by
  refine ⟨?_, ?_, ?_, ?_⟩
  · intro C tr x y l az st res h
    have hst := sfe_forward_state C tr x y l az st res h
    constructor
    · intro hne
      by_contra hc
      exact hne (by rw [hst, if_neg hc])
    · intro hcond
      rw [hst, if_pos hcond]
      exact runavgUpdate_ne st _
  · intro C tr x y l az st res h
    have hst := bv_forward_state C tr x y l az st res h
    constructor
    · intro hne
      by_contra hc
      exact hne (by rw [hst, if_neg hc])
    · intro hcond
      rw [hst, if_pos hcond]
      exact runavgUpdate_ne st _
  · intro C tr x y l st
    rfl
  · intro C tr x y l st
    rfl

/-- C5: under the `'sample'` policy both SFE variants take the alternate latent
draw (external randomness, detached by type: it carries no derivative), run it
through the decoder and the task loss function, and the resulting per-example
loss is exactly the baseline that enters the policy surrogate of the pass. -/
theorem C5_sample_baseline {E D L O : Type} (C : SFECollab E D L O)
    (hs : C.baseline_type = "sample") (CB : BVSFECollab E D L O)
    (hsb : CB.baseline_type = "sample") (st : BaselineState) (x : E) (y : D)
    (l : L) (az : List ℕ) (azb : List (List ℚ)) (tr : Bool) :
    sfeSelectBaseline C st x y l az
        = Except.ok (Baseline.perExample (sfeAltBaseline C x y l az))
    ∧ sfeAltBaseline C x y l az = (C.lossFun x az y (C.decoder az y).1 l).1
    ∧ (∀ res, ScoreFunctionEstimator.forward C tr x y l az st = Except.ok res →
        res.full_loss
          = sfePolicyLoss (sfeTaskLoss C x y l)
              (Baseline.perExample (sfeAltBaseline C x y l az))
              (sfeEncLogProbs C x) (sfeDecLogProbs C x y)
            + sfeEntropyLoss (sfeEncEntropy C x) (sfeDecEntropy C x y)
                C.encoder_entropy_coeff C.decoder_entropy_coeff
            + meanD (sfeTaskLoss C x y l))
    ∧ bvSfeSelectBaseline CB st x y l azb
        = Except.ok (Baseline.perExample (bvAltBaseline CB x y l azb))
    ∧ bvAltBaseline CB x y l azb = (CB.lossFun x azb y (CB.decoder azb y).1 l).1
    ∧ (∀ res, BitVectorScoreFunctionEstimator.forward CB tr x y l azb st
          = Except.ok res →
        res.full_loss
          = bvSfeFullLoss
              (bvSfePolicyLoss (bvTaskLoss CB x y l)
                (Baseline.perExample (bvAltBaseline CB x y l azb))
                (bvEncLogProbs CB x))
              (bvSfeEntropyLoss (bvEncEntropy CB x) CB.encoder_entropy_coeff)
              (bvTaskLoss CB x y l)) := by
  refine ⟨?_, ?_, ?_, ?_, ?_, ?_⟩
  · exact sfe_select_sample C hs st x y l az
  · rfl
  · intro res h
    exact sfe_forward_full_loss C tr x y l az st _ res
      (sfe_select_sample C hs st x y l az) h
  · exact bv_select_sample CB hsb st x y l azb
  · rfl
  · intro res h
    exact bv_forward_full_loss CB tr x y l azb st _ res
      (bv_select_sample CB hsb st x y l azb) h

/-- C6: with a baseline-type string that is neither `'runavg'` nor `'sample'`,
the forward pass of either SFE variant fails at the first use of the unbound
baseline and returns no result at all: it never substitutes a default baseline
and completes. -/
theorem C6_unknown_baseline_fails {E D L O : Type} (C : SFECollab E D L O)
    (h1 : C.baseline_type ≠ "runavg") (h2 : C.baseline_type ≠ "sample")
    (CB : BVSFECollab E D L O) (g1 : CB.baseline_type ≠ "runavg")
    (g2 : CB.baseline_type ≠ "sample") (tr : Bool) (x : E) (y : D) (l : L)
    (az : List ℕ) (azb : List (List ℚ)) (st : BaselineState) :
    ScoreFunctionEstimator.forward C tr x y l az st
        = Except.error unboundBaselineMsg
    ∧ BitVectorScoreFunctionEstimator.forward CB tr x y l azb st
        = Except.error unboundBaselineMsg := by
  constructor
  · exact sfe_forward_error C tr x y l az st _
      (sfe_select_unknown C h1 h2 st x y l az)
  · exact bv_forward_error CB tr x y l azb st _
      (bv_select_unknown CB g1 g2 st x y l azb)

/-- C7: for same-length per-example terms, the bit-vector composition (sum the
terms per example, one mean at the very end) coincides with the categorical
composition (mean-reduce every term separately and add the means), for both
the SFE full loss and the NVIL full loss including its MSE term. -/
theorem C7_bitvector_composition (p e l mse : Tensor1)
    (hpe : p.length = e.length) (hpl : p.length = l.length)
    (hpm : p.length = mse.length) :
    bvSfeFullLoss p e l = meanD p + meanD e + meanD l
    ∧ bvNvilFullLoss p l mse e = meanD p + meanD l + meanD mse + meanD e := by
  have hl1 : (tadd p e).length = p.length := by
    rw [length_tadd, ← hpe, min_self]
  have hl2 : (tadd (tadd p l) mse).length = p.length := by
    rw [length_tadd, length_tadd, ← hpl, min_self, ← hpm, min_self]
  have hl3 : (tadd p l).length = p.length := by
    rw [length_tadd, ← hpl, min_self]
  constructor
  · unfold bvSfeFullLoss
    rw [meanD_tadd _ _ (by rw [hl1, hpl]),
      meanD_tadd _ _ hpe]
  · unfold bvNvilFullLoss
    rw [meanD_tadd _ _ (by rw [hl2, hpe]),
      meanD_tadd _ _ (by rw [hl3, hpm]),
      meanD_tadd _ _ hpl]

/-- C8: both bit-vector wrappers return as third component the per-example sum
across the `B` bits of the elementwise Bernoulli entropies (one entry per
batch row, not a mean), and the bit-vector estimators reduce the elementwise
per-bit log-probabilities of the sample by the same per-row sum, with one
entry per batch row when the sample has one row per score row. -/
theorem C8_bitvector_sum_reduction {A : Type} (agent : A → Tensor2)
    (bernEnt : Dual → Dual) (sampler : Tensor2 → List (List ℚ)) (x : A)
    (lp : Dual → ℚ → Dual) (scores : Tensor2) (z : List (List ℚ))
    (hz : z.length = scores.length) :
    (BitVectorSFEWrapper.forward agent bernEnt sampler x).2.2
        = (agent x).map (fun row => dsum (row.map bernEnt))
    ∧ (BitVectorSFEWrapper.forward agent bernEnt sampler x).2.2.length
        = (agent x).length
    ∧ (BitVectorNVILWrapper.forward agent bernEnt sampler x).2.2
        = (agent x).map (fun row => dsum (row.map bernEnt))
    ∧ (BitVectorNVILWrapper.forward agent bernEnt sampler x).2.2.length
        = (agent x).length
    ∧ bvSampleLogProbs lp scores z
        = List.zipWith (fun srow zrow => dsum (List.zipWith lp srow zrow))
            scores z
    ∧ (bvSampleLogProbs lp scores z).length = scores.length := by
  refine ⟨?_, ?_, ?_, ?_, ?_, ?_⟩
  · show sumDim1 ((agent x).map (fun row => row.map bernEnt))
        = (agent x).map (fun row => dsum (row.map bernEnt))
    unfold sumDim1
    rw [List.map_map]
    rfl
  · show (sumDim1 ((agent x).map (fun row => row.map bernEnt))).length
        = (agent x).length
    unfold sumDim1
    simp
  · show sumDim1 ((agent x).map (fun row => row.map bernEnt))
        = (agent x).map (fun row => dsum (row.map bernEnt))
    unfold sumDim1
    rw [List.map_map]
    rfl
  · show (sumDim1 ((agent x).map (fun row => row.map bernEnt))).length
        = (agent x).length
    unfold sumDim1
    simp
  · unfold bvSampleLogProbs sumDim1
    rw [List.map_zipWith]
  · unfold bvSampleLogProbs sumDim1
    simp [hz]

/-- C10: in both SFE variants the logged `baseline` diagnostic is the instance
attribute `mean_baseline` as it stands after the pass: under `'runavg'` in
training mode it is the post-update running mean, and under `'sample'` it is
the untouched stored running mean rather than the per-example baseline the
surrogate actually used. -/
theorem C10_logged_baseline {E D L O : Type} :
    (∀ (C : SFECollab E D L O) (tr : Bool) (x : E) (y : D) (l : L)
        (az : List ℕ) (st : BaselineState) (res : SFEResult),
      ScoreFunctionEstimator.forward C tr x y l az st = Except.ok res →
        res.log.baseline = res.state.mean_baseline)
    ∧ (∀ (C : SFECollab E D L O) (x : E) (y : D) (l : L) (az : List ℕ)
        (st : BaselineState) (res : SFEResult), C.baseline_type = "runavg" →
      ScoreFunctionEstimator.forward C true x y l az st = Except.ok res →
        res.log.baseline
          = (runavgUpdate st
              (meanD (tdetach (sfeTaskLoss C x y l))).val).mean_baseline)
    ∧ (∀ (C : SFECollab E D L O) (tr : Bool) (x : E) (y : D) (l : L)
        (az : List ℕ) (st : BaselineState) (res : SFEResult),
        C.baseline_type = "sample" →
      ScoreFunctionEstimator.forward C tr x y l az st = Except.ok res →
        res.log.baseline = st.mean_baseline)
    ∧ (∀ (C : BVSFECollab E D L O) (tr : Bool) (x : E) (y : D) (l : L)
        (az : List (List ℚ)) (st : BaselineState) (res : BVSFEResult),
      BitVectorScoreFunctionEstimator.forward C tr x y l az st = Except.ok res →
        res.log.baseline = res.state.mean_baseline)
    ∧ (∀ (C : BVSFECollab E D L O) (x : E) (y : D) (l : L)
        (az : List (List ℚ)) (st : BaselineState) (res : BVSFEResult),
        C.baseline_type = "runavg" →
      BitVectorScoreFunctionEstimator.forward C true x y l az st = Except.ok res →
        res.log.baseline
          = (runavgUpdate st
              (meanD (tdetach (bvTaskLoss C x y l))).val).mean_baseline)
    ∧ (∀ (C : BVSFECollab E D L O) (tr : Bool) (x : E) (y : D) (l : L)
        (az : List (List ℚ)) (st : BaselineState) (res : BVSFEResult),
        C.baseline_type = "sample" →
      BitVectorScoreFunctionEstimator.forward C tr x y l az st = Except.ok res →
        res.log.baseline = st.mean_baseline) := by
  refine ⟨?_, ?_, ?_, ?_, ?_, ?_⟩
  · intro C tr x y l az st res h
    exact sfe_forward_logbaseline C tr x y l az st res h
  · intro C x y l az st res hb h
    rw [sfe_forward_logbaseline C true x y l az st res h,
      sfe_forward_state C true x y l az st res h, if_pos ⟨rfl, hb⟩]
  · intro C tr x y l az st res hs h
    have hcond : ¬(tr = true ∧ C.baseline_type = "runavg") := by
      rintro ⟨h1, hr⟩
      rw [hs] at hr
      exact absurd hr (by decide)
    rw [sfe_forward_logbaseline C tr x y l az st res h,
      sfe_forward_state C tr x y l az st res h, if_neg hcond]
  · intro C tr x y l az st res h
    exact bv_forward_logbaseline C tr x y l az st res h
  · intro C x y l az st res hb h
    rw [bv_forward_logbaseline C true x y l az st res h,
      bv_forward_state C true x y l az st res h, if_pos ⟨rfl, hb⟩]
  · intro C tr x y l az st res hs h
    have hcond : ¬(tr = true ∧ C.baseline_type = "runavg") := by
      rintro ⟨h1, hr⟩
      rw [hs] at hr
      exact absurd hr (by decide)
    rw [bv_forward_logbaseline C tr x y l az st res h,
      bv_forward_state C tr x y l az st res h, if_neg hcond]

theorem fixtureRun_forward :
    ScoreFunctionEstimator.forward fixtureRun true () () () [] st0
      = Except.ok fixtureRunRes := by
  simp [ScoreFunctionEstimator.forward, sfeSelectBaseline, fixtureRun, st0,
    fixtureRunRes, sfeTaskLoss, sfeUserLogs, sfeEncLogProbs, sfeDecLogProbs,
    sfeEncEntropy, sfeDecEntropy, sfePolicyLoss, sfeEntropyLoss,
    meanD, dsum, tmul, tadd, tsub, tsubQ, tsubBase, tdetach, catArgmax,
    decoderSampleLogProbs, runavgUpdate, Dual.const, Dual.eq_iff,
    SFEResult.mk.injEq, SFELog.mk.injEq, BaselineState.mk.injEq]

/-- C3 witness: on a concrete running-average instance the baseline selected
for the pass is the stored pre-update running mean. -/
theorem C3_witness :
    fixtureRun.baseline_type = "runavg"
    ∧ sfeSelectBaseline fixtureRun st0 () () () []
        = Except.ok (Baseline.scalar st0.mean_baseline) :=
  ⟨rfl, (C3_runavg_baseline fixtureRun rfl st0 () () () []).2.2.1⟩

/-- C4 witness: a concrete training-mode running-average pass mutates the
state, and the mutation criterion evaluates as the theorem states. -/
theorem C4_witness :
    ScoreFunctionEstimator.forward fixtureRun true () () () [] st0
        = Except.ok fixtureRunRes
    ∧ (fixtureRunRes.state ≠ st0
        ↔ (true = true ∧ fixtureRun.baseline_type = "runavg")) :=
  ⟨fixtureRun_forward,
    (C4_state_mutation_iff (E := Unit) (D := Unit) (L := Unit) (O := Unit)).1
      fixtureRun true () () () [] st0 fixtureRunRes fixtureRun_forward⟩

/-- C5 witness: on a concrete resampled-rollout instance the selected baseline
is the per-example loss of the alternate rollout. -/
theorem C5_witness :
    fixtureSample.baseline_type = "sample"
    ∧ sfeSelectBaseline fixtureSample st0 () () () []
        = Except.ok (Baseline.perExample (sfeAltBaseline fixtureSample () () () [])) :=
  ⟨rfl, (C5_sample_baseline fixtureSample rfl fixtureBVSample rfl st0 () () ()
    [] [] false).1⟩

/-- C6 witness: on concrete instances with baseline type `"foo"` both SFE
forward passes fail with the unbound-baseline error. -/
theorem C6_witness :
    fixtureFoo.baseline_type = "foo"
    ∧ ScoreFunctionEstimator.forward fixtureFoo false () () () [] st0
        = Except.error unboundBaselineMsg
    ∧ BitVectorScoreFunctionEstimator.forward fixtureBVFoo false () () () [] st0
        = Except.error unboundBaselineMsg :=
  ⟨rfl,
    (C6_unknown_baseline_fails fixtureFoo (by decide) (by decide) fixtureBVFoo
      (by decide) (by decide) false () () () [] [] st0).1,
    (C6_unknown_baseline_fails fixtureFoo (by decide) (by decide) fixtureBVFoo
      (by decide) (by decide) false () () () [] [] st0).2⟩

/-- C7 witness: on concrete singleton tensors the bit-vector composition
agrees with the sum of separate means. -/
theorem C7_witness :
    ([Dual.const 1] : Tensor1).length = ([Dual.const 2] : Tensor1).length
    ∧ bvSfeFullLoss [Dual.const 1] [Dual.const 2] [Dual.const 3]
        = meanD [Dual.const 1] + meanD [Dual.const 2] + meanD [Dual.const 3] :=
  ⟨rfl, (C7_bitvector_composition [Dual.const 1] [Dual.const 2] [Dual.const 3]
    [Dual.const 4] rfl rfl rfl).1⟩

/-- C8 witness: on a concrete one-by-one score matrix the wrapper entropy is
the per-row sum of the elementwise entropies. -/
theorem C8_witness :
    ([[(0 : ℚ)]] : List (List ℚ)).length = ([[Dual.const 1]] : Tensor2).length
    ∧ (BitVectorSFEWrapper.forward (fun _ : Unit => [[Dual.const 1]])
        (fun d => d) (fun _ => [[0]]) ()).2.2
        = ([[Dual.const 1]] : Tensor2).map (fun row => dsum (row.map (fun d => d))) :=
  ⟨rfl, (C8_bitvector_sum_reduction (fun _ : Unit => [[Dual.const 1]])
    (fun d => d) (fun _ => [[0]]) () (fun s _ => s) [[Dual.const 1]] [[0]]
    rfl).1⟩

/-- C10 witness: on a concrete training-mode running-average pass the logged
baseline equals the post-update state attribute. -/
theorem C10_witness :
    ScoreFunctionEstimator.forward fixtureRun true () () () [] st0
        = Except.ok fixtureRunRes
    ∧ fixtureRunRes.log.baseline = fixtureRunRes.state.mean_baseline :=
  ⟨fixtureRun_forward,
    (C10_logged_baseline (E := Unit) (D := Unit) (L := Unit) (O := Unit)).1
      fixtureRun true () () () [] st0 fixtureRunRes fixtureRun_forward⟩
